import Mathlib

/-!
Verification development for the browser client of the heist-themed card and
chip game ("the-gang" repository).  The repository consists of three evolving
versions of one client script: `src/unnamed/part_000` (earliest) and the two
versions concatenated in `src/static/script.js` (the second of which, lines
471-1253, is the latest).  The definitions below are a shallow embedding of
that JavaScript:

* JS numbers that carry timestamps are modelled as rationals (milliseconds
  for `Date.now()` values, seconds for server timestamps such as
  `event.at` and `disconnected_at`); chip values, vault and alarm counts are
  modelled as integers.
* The DOM regions the script writes are modelled by the `Dom` record; the
  innerHTML strings the script assembles are rebuilt here with the same
  content (insignificant template whitespace is collapsed).
* Mutable script globals (`playerId`, `isObserver`, `lastState`,
  `showResultDetails`, the tomato-animation variables) live in `ClientState`;
  `localStorage` is the `Storage` record.
* `socket.emit` calls are modelled as values of type `Emit` returned by the
  action functions; pending `setTimeout` callbacks are modelled as the fire
  time (and payload) stored in `TomatoVars`, together with explicit
  functions (`fireTomatoClear`) giving the effect of the callback body.
* The floating tomato-menu overlay element created by `toggleTomatoMenu` is
  not itself modelled; only the emission performed by its button click is
  (`tomatoMenuButtonClick`).
-/

namespace TheGang

/-- JavaScript string `toLowerCase`, restricted to the ASCII range used by
the chip colors (modelled structurally so it evaluates in the kernel). -/
def jsToLower (s : String) : String :=
  String.mk (s.data.map Char.toLower)

/-- Helper for `jsIncludes`: is the first list a prefix of the second? -/
def prefOf : List Char → List Char → Bool
  | [], _ => true
  | _ :: _, [] => false
  | a :: as, b :: bs => a == b && prefOf as bs

/-- Helper for `jsIncludes`: does the needle occur in the haystack? -/
def infOf (needle : List Char) : List Char → Bool
  | [] => prefOf needle []
  | c :: cs => prefOf needle (c :: cs) || infOf needle cs

/-- JavaScript `s.includes(pat)` (substring containment). -/
def jsIncludes (s pat : String) : Bool :=
  infOf pat.data s.data

/-- JavaScript whitespace characters recognised by `String.prototype.trim`
(the ones relevant to chat input). -/
def isJsWhitespace (c : Char) : Bool :=
  c == ' ' || c == '\t' || c == '\n' || c == '\r' || c == '\x0b' || c == '\x0c'

/-- JavaScript `s.trim()`. -/
def jsTrim (s : String) : String :=
  String.mk (((s.data.dropWhile isJsWhitespace).reverse.dropWhile isJsWhitespace).reverse)

/-- Payload of a `socket.emit` call made by the client. -/
inductive Payload where
  | empty
  | takeChipP (chip_value : Int) (source : String)
  | joinGameP (player_id : String) (name : String) (is_observer : Bool)
  | changeNameP (name : String)
  | removePlayerP (target_player_id : String)
  | throwTomatoP (target_player_id : String)
  | chatMessageP (text : String)
  deriving DecidableEq, Repr

/-- One `socket.emit(event, payload)` call. -/
structure Emit where
  event : String
  payload : Payload
  deriving DecidableEq, Repr

/-- A card as sent by the server (fields `str` and `suit`). -/
structure Card where
  str : String
  suit : String
  deriving DecidableEq, Repr

/-- An entry of a chip history (fields `color` and `value`). -/
structure ChipHist where
  color : String
  value : Int
  deriving DecidableEq, Repr

/-- A chat message as sent by the server. -/
structure ChatMsg where
  name : String
  text : String
  is_observer : Bool
  deriving DecidableEq, Repr

/-- A tomato event as sent by the server.  `atSec` models the field `at` of
the event, a timestamp in seconds (the name `at` is reserved in Lean);
`none` models a missing or non-numeric `event.at`.  Empty strings model
absent ids (JavaScript falsiness). -/
structure TomatoEvent where
  id : String
  atSec : Option ℚ
  from_id : String
  to_id : String
  from_name : String
  to_name : String
  deriving DecidableEq, Repr

/-- A player object of the server state. -/
structure Player where
  player_id : String
  name : String
  is_observer : Bool
  is_connected : Bool
  is_settled : Bool
  queued_to_join : Bool
  chip : Option Int
  chip_history : List ChipHist
  hand : List Card
  disconnected_at : Option ℚ
  deriving DecidableEq, Repr

/-- A row of the detailed result rankings. -/
structure ResultRow where
  name : String
  guess_rank : Int
  true_rank : Int
  hand_class : String
  is_correct : Bool
  deriving DecidableEq, Repr

/-- The `result_details` object: the code reads `details[phase] || []` for
the phases FLOP, TURN and RIVER. -/
structure ResultDetails where
  flop : List ResultRow
  turn : List ResultRow
  river : List ResultRow
  deriving DecidableEq, Repr

/-- The authoritative state snapshot received on `game_update`. -/
structure GameState where
  me : Option Player
  viewer_role : String
  phase : String
  chip_color : String
  community_cards : List Card
  chips_available : List Int
  players : List Player
  result_message : Option String
  result_details : Option ResultDetails
  vaults : Int
  alarms : Int
  chat_messages : List ChatMsg
  tomato_event : Option TomatoEvent
  deriving DecidableEq, Repr

/-- The relevant `localStorage` entries (`none` models an absent key). -/
structure Storage where
  player_id : Option String
  player_name : Option String
  observer_mode : Option String
  deriving DecidableEq, Repr

/-- The mutable globals of the tomato animation (script.js lines 485-491),
with pending `setTimeout` callbacks modelled by their fire time. -/
structure TomatoVars where
  lastTomatoEventId : Option String
  pendingTomatoEvent : Option TomatoEvent
  activeTomatoTargetId : Option String
  activeTomatoExpiresAt : ℚ
  activeTomatoShowAt : ℚ
  clearTimer : Option ℚ
  impactTimer : Option (ℚ × String)
  deriving DecidableEq, Repr

/-- The mutable top-level variables of the script. -/
structure ClientState where
  storage : Storage
  playerId : String
  myName : String
  isObserver : Bool
  showResultDetails : Bool
  lastState : Option GameState
  tomato : TomatoVars
  deriving DecidableEq, Repr

/-- A rendered card div (`createCardDiv`). -/
structure CardDiv where
  classes : List String
  text : String
  deriving DecidableEq, Repr

/-- A chip-bank button; `onClick` records the emissions of its click
handler. -/
structure ChipButton where
  className : String
  label : String
  onClick : List Emit
  deriving DecidableEq, Repr

/-- The live span showing how long an opponent has been disconnected. -/
structure DiscTimeSpan where
  dataDisconnectedAt : ℚ
  text : String
  deriving DecidableEq, Repr

/-- A rendered opponent card in the opponents row. -/
structure OpponentCard where
  player_id : String
  className : String
  nameBtnLabel : String
  statusLabel : String
  discTime : Option DiscTimeSpan
  kickBtn : Bool
  handHtml : String
  chipHtml : String
  historyHtml : String
  tomatoHit : Bool
  deriving DecidableEq, Repr

/-- A rendered observer pill. -/
structure ObserverPill where
  className : String
  text : String
  deriving DecidableEq, Repr

/-- A rendered chat line. -/
structure ChatLine where
  nameText : String
  textText : String
  deriving DecidableEq, Repr

/-- A rendered mini chip of the personal history row. -/
structure MiniChip where
  className : String
  text : String
  deriving DecidableEq, Repr

/-- The DOM regions the script reads and writes.  `tomatoFlights` holds the
cleanup deadlines of in-flight tomato emoji elements; `tomatoToast` is the
tomato toast element (its text when shown, `none` when hidden). -/
structure Dom where
  bodyObserverMode : Bool
  phaseDisplay : String
  vaultCount : String
  alarmCount : String
  myNameText : String
  communityCards : List CardDiv
  chipBank : List ChipButton
  chipBankDisabled : Bool
  opponents : List OpponentCard
  observerPills : List ObserverPill
  observerEmptyMsg : Bool
  observerStatus : String
  observerBtnText : String
  chatLines : List ChatLine
  myCards : List CardDiv
  myHistory : List MiniChip
  myChipSlot : String
  settleBtnDisabled : Bool
  returnBtnDisabled : Bool
  settleBtnText : String
  settleBtnActive : Bool
  playerAreaSettled : Bool
  playerAreaPlayerId : Option String
  playerAreaHasSplat : Bool
  playerAreaTomatoHit : Bool
  tomatoFlights : List ℚ
  tomatoToast : Option String
  deriving DecidableEq, Repr

/-- Script startup (script.js lines 471-493): read or create the persistent
player id, read the cached name and observer flag, initialise the mutable
globals.  `freshUuid` stands for the value produced by
`crypto.randomUUID()`.  Note the JavaScript truthiness test `if (!playerId)`
treats an empty-string entry like a missing one. -/
def clientInit (storage : Storage) (freshUuid : String) : ClientState :=
  let pidMissing : Bool := storage.player_id = none || storage.player_id = some ""
  let playerId := if pidMissing then freshUuid else storage.player_id.getD ""
  let storage1 := if pidMissing then { storage with player_id := some freshUuid } else storage
  { storage := storage1
    playerId := playerId
    myName := storage1.player_name.getD ""
    isObserver := storage1.observer_mode == some "true"
    showResultDetails := false
    lastState := none
    tomato :=
      { lastTomatoEventId := none
        pendingTomatoEvent := none
        activeTomatoTargetId := none
        activeTomatoExpiresAt := 0
        activeTomatoShowAt := 0
        clearTimer := none
        impactTimer := none } }

/-- Handler of the `request_join` socket event (script.js lines 509-516):
re-identify with the stable player id. -/
def onRequestJoin (cs : ClientState) : List Emit :=
  [⟨"join_game", .joinGameP cs.playerId cs.myName cs.isObserver⟩]

/-- Action `startGame` (script.js lines 582-584). -/
def startGame : List Emit :=
  [⟨"start_game", .empty⟩]

/-- Action `restartGame` after the user confirmed the dialog (script.js
lines 586-594). -/
def restartGameConfirmed : List Emit :=
  [⟨"restart_game", .empty⟩]

/-- Action `changeName` (script.js lines 596-605); takes the value of the
name input and returns the new state, the new input value and the
emissions. -/
def changeName (cs : ClientState) (inputValue : String) : ClientState × String × List Emit :=
  let newName := jsTrim inputValue
  if newName = "" then (cs, inputValue, [])
  else
    ({ cs with
        myName := newName
        storage := { cs.storage with player_name := some newName } },
      "",
      [⟨"change_name", .changeNameP newName⟩])

/-- Action `setObserverMode` (script.js lines 607-615). -/
def setObserverMode (nextIsObserver : Bool) (cs : ClientState) : ClientState × List Emit :=
  ({ cs with
      isObserver := nextIsObserver
      storage := { cs.storage with observer_mode := some (toString nextIsObserver) } },
    [⟨"join_game", .joinGameP cs.playerId cs.myName nextIsObserver⟩])

/-- Action `removePlayer` after the user confirmed the dialog (script.js
lines 627-631). -/
def removePlayerConfirmed (targetPlayerId : String) : List Emit :=
  [⟨"remove_player", .removePlayerP targetPlayerId⟩]

/-- Action `takeChip` (script.js lines 637-639). -/
def takeChip (value : Int) (source : String) : List Emit :=
  [⟨"take_chip", .takeChipP value source⟩]

/-- Action `returnChip` (script.js lines 641-643). -/
def returnChip : List Emit :=
  [⟨"return_chip", .empty⟩]

/-- Action `toggleSettle` (script.js lines 645-647). -/
def toggleSettle : List Emit :=
  [⟨"toggle_settle", .empty⟩]

/-- Click handler of the tomato-menu button created by `toggleTomatoMenu`
(script.js lines 679-683): emit `throw_tomato` for the captured opponent id
and remove the menu (the overlay element itself is not modelled). -/
def tomatoMenuButtonClick (targetPlayerId : String) : List Emit :=
  [⟨"throw_tomato", .throwTomatoP targetPlayerId⟩]

/-- Submit handler of the chat form (script.js lines 538-546); takes the
value of the chat input and returns the new input value together with the
emissions. -/
def chatSubmit (inputValue : String) : String × List Emit :=
  let text := jsTrim inputValue
  if text = "" then (inputValue, [])
  else ("", [⟨"chat_message", .chatMessageP text⟩])

/-- Function `formatDuration` (script.js lines 548-558). -/
def formatDuration (totalSeconds : ℚ) : String :=
  let t : Int := max 0 (Rat.floor totalSeconds)
  let h := t / 3600
  let m := (t % 3600) / 60
  let s := t % 60
  if h > 0 then s!"{h}h {m}m"
  else if m > 0 then s!"{m}m {s}s"
  else s!"{s}s"

/-- Function `createCardDiv` (script.js lines 1248-1254). -/
def createCardDiv (card : Card) : CardDiv :=
  { classes := ["card"] ++ (if ["♥", "♦"].contains card.suit then ["red-suit"] else [])
    text := card.str }

/-- Rendered flat HTML of a card div, used where the code embeds
`cDiv.outerHTML` in a template string. -/
def cardDivHtml (c : CardDiv) : String :=
  "<div class=\"" ++ String.intercalate " " c.classes ++ "\">" ++ c.text ++ "</div>"

/-- Color chosen for the result message (script.js lines 800-802, and
part_000 line 68): green when the message mentions SUCCESS or WIN, red
otherwise. -/
def successColor (msg : String) : String :=
  if jsIncludes msg "SUCCESS" || jsIncludes msg "WIN" then "#2ecc71" else "#e74c3c"

/-- Label of the post-result button in the earliest version (part_000 line
72): the client decides between a fresh game and the next heist by testing
the vault and alarm counts against the win threshold 3. -/
def part000NextButtonLabel (vaults alarms : Int) : String :=
  if vaults ≥ 3 ∨ alarms ≥ 3 then "New Game" else "Next Heist"

/-- The RESULT-phase innerHTML of the phase display in the earliest version
(part_000 lines 66-75). -/
def part000ResultInnerHtml (vaults alarms : Int) (result_message : String) : String :=
  "<div style=\"color: " ++ successColor result_message ++ "\">" ++ result_message ++ "</div>" ++
  "<button onclick=\"startGame()\" style=\"margin-top:10px;\">" ++
  part000NextButtonLabel vaults alarms ++ "</button>"

/-- HTML of one row of the detailed rankings (script.js lines 714-726). -/
def resultRowHtml (row : ResultRow) : String :=
  let statusClass := if row.is_correct then "ok" else "off"
  let statusLabel := if row.is_correct then "OK" else "OFF"
  "<div class=\"result-row\">" ++
  "<span class=\"result-name\">" ++ row.name ++ "</span>" ++
  "<span class=\"result-guess\">Guess #" ++ toString row.guess_rank ++ "</span>" ++
  "<span class=\"result-true\">True #" ++ toString row.true_rank ++ "</span>" ++
  "<span class=\"result-hand\">" ++ row.hand_class ++ "</span>" ++
  "<span class=\"result-status " ++ statusClass ++ "\">" ++ statusLabel ++ "</span>" ++
  "</div>"

/-- HTML of one phase block of the detailed rankings (script.js lines
707-729). -/
def resultPhaseBlock (phase : String) (rows : List ResultRow) : String :=
  "<div class=\"result-phase\">" ++
  "<div class=\"result-phase-title\">" ++ phase ++ "</div>" ++
  (if rows = [] then "<div class=\"result-empty\">No rankings available.</div>"
   else String.join (rows.map resultRowHtml)) ++
  "</div>"

/-- Function `buildResultDetails` (script.js lines 703-732); returns the
empty string when `details` is absent. -/
def buildResultDetails (details : Option ResultDetails) : String :=
  match details with
  | none => ""
  | some d =>
    "<div class=\"result-details\">" ++
    resultPhaseBlock "FLOP" d.flop ++
    resultPhaseBlock "TURN" d.turn ++
    resultPhaseBlock "RIVER" d.river ++
    "</div>"

/-- The detailed-rankings component of the RESULT view (script.js line
806): present only when the toggle is on. -/
def resultDetailsComponent (showDetails : Bool) (details : Option ResultDetails) : String :=
  if showDetails then buildResultDetails details else ""

/-- The header part (message and buttons) of the RESULT-phase innerHTML
(script.js lines 808-825). -/
def resultHeaderHtml (showDetails : Bool) (result_message : Option String) : String :=
  let msg := result_message.getD ""
  let detailsBtnLabel := if showDetails then "Hide Detailed Rankings" else "Show Detailed Rankings"
  "<div style=\"color: " ++ successColor msg ++ "\">" ++ msg ++ "</div>" ++
  "<div style=\"display:flex; gap:10px; justify-content:center; margin-top:10px; flex-wrap:wrap;\">" ++
  "<button onclick=\"startGame()\">Next Heist</button>" ++
  "<button onclick=\"restartGame()\" style=\"background:#e74c3c; border:none; color:white; padding:10px 14px; border-radius:4px; cursor:pointer;\">Restart Game (Reset 0/0)</button>" ++
  "<button onclick=\"toggleResultDetails()\">" ++ detailsBtnLabel ++ "</button>" ++
  "</div>"

/-- The RESULT-phase innerHTML of the phase display in the latest version
(script.js lines 799-828). -/
def resultPhaseInnerHtml (showDetails : Bool) (result_message : Option String)
    (details : Option ResultDetails) : String :=
  resultHeaderHtml showDetails result_message ++ resultDetailsComponent showDetails details

/-- Default header text of the phase display (script.js lines 783-786). -/
def statusText (st : GameState) : String :=
  if st.phase == "LOBBY" then "Waiting for Players..."
  else st.phase ++ " - " ++ st.chip_color ++ " Chips"

/-- Lifetime of the tomato effect in milliseconds (script.js line 482). -/
def TOMATO_LIFETIME_MS : ℚ := 3000

/-- Flight time of the thrown tomato in milliseconds (script.js line 483). -/
def TOMATO_FLIGHT_MS : ℚ := 650

/-- Remove the `tomato-hit` class from every element
(`document.querySelectorAll(".tomato-hit")` loops in the script). -/
def clearHits (dom : Dom) : Dom :=
  { dom with
      opponents := dom.opponents.map (fun c => { c with tomatoHit := false })
      playerAreaTomatoHit := false }

/-- Function `updateTomatoToast` (script.js lines 1203-1221). -/
def updateTomatoToast (text : Option String) (dom : Dom) : Dom :=
  { dom with tomatoToast := text }

/-- The common early-return branch of `applyTomatoEffect` (script.js lines
1043-1050 and 1054-1061): clear all hit markings, cancel a pending impact
callback and hide the toast. -/
def staleClear (tv : TomatoVars) (dom : Dom) : TomatoVars × Dom :=
  ({ tv with impactTimer := none }, updateTomatoToast none (clearHits dom))

/-- Mark the first opponent card with the given player id as hit
(`document.querySelector` returns the first match). -/
def markFirstHit : List OpponentCard → String → List OpponentCard
  | [], _ => []
  | c :: cs, tid =>
    if c.player_id == tid then { c with tomatoHit := true } :: cs
    else c :: markFirstHit cs tid

/-- An element resolved for a tomato event: an opponent card, or the own
player area. -/
inductive TomatoRef where
  | card (player_id : String)
  | area
  deriving DecidableEq, Repr

/-- Resolve an event participant id to an element the way the script does
(script.js lines 1067-1077): a truthy id selects the matching player card;
otherwise the own player area when the id matches `me.player_id`. -/
def resolveRef (pid : String) (me : Option Player) (dom : Dom) : Option TomatoRef :=
  let card := if pid ≠ "" then (dom.opponents.find? (fun c => c.player_id == pid)) else none
  match card with
  | some c => some (.card c.player_id)
  | none =>
    match me with
    | some m => if m.player_id == pid then some .area else none
    | none => none

/-- Add the `tomato-hit` class to a resolved element. -/
def addHitRef : TomatoRef → Dom → Dom
  | .card tid, dom => { dom with opponents := markFirstHit dom.opponents tid }
  | .area, dom => { dom with playerAreaTomatoHit := true }

/-- Function `scheduleTomatoImpact` (script.js lines 1129-1142): replace the
pending impact callback by one firing after `max 0 delayMs` for the given
target. -/
def scheduleTomatoImpact (now : ℚ) (targetId : String) (delayMs : ℚ) (tv : TomatoVars) :
    TomatoVars :=
  if targetId = "" then tv
  else { tv with impactTimer := some (now + max 0 delayMs, targetId) }

/-- Function `animateTomatoFlight` (script.js lines 1144-1184), reduced to
its DOM effect: a flight element is added whose fallback cleanup fires
`TOMATO_FLIGHT_MS + 200` ms later (the `transitionend` cleanup and the hit
marking at flight end are covered by the impact callback scheduled by the
caller). -/
def animateTomatoFlight (now : ℚ) (dom : Dom) : Dom :=
  { dom with tomatoFlights := dom.tomatoFlights ++ [now + TOMATO_FLIGHT_MS + 200] }

/-- Function `scheduleTomatoClear` (script.js lines 1186-1201): replace the
pending clear callback by one firing `TOMATO_LIFETIME_MS` later. -/
def scheduleTomatoClear (now : ℚ) (tv : TomatoVars) : TomatoVars :=
  { tv with clearTimer := some (now + TOMATO_LIFETIME_MS) }

/-- Body of the callback scheduled by `scheduleTomatoClear` (script.js lines
1188-1200): remove all hit markings and flight elements, reset the active
tomato state, cancel a pending impact callback, hide the toast. -/
def fireTomatoClear (tv : TomatoVars) (dom : Dom) : TomatoVars × Dom :=
  ({ tv with
      clearTimer := none
      activeTomatoTargetId := none
      activeTomatoExpiresAt := 0
      activeTomatoShowAt := 0
      impactTimer := none },
    updateTomatoToast none { clearHits dom with tomatoFlights := [] })

/-- The toast text for a tomato event (script.js lines 1091, 1095, 1098). -/
def tomatoToastText (e : TomatoEvent) : String :=
  "🍅 " ++ e.from_name ++ " splats " ++ e.to_name ++ "!"

/-- Function `applyTomatoEffect` (script.js lines 1042-1101). -/
def applyTomatoEffect (now : ℚ) (event : Option TomatoEvent) (me : Option Player)
    (tv : TomatoVars) (dom : Dom) : TomatoVars × Dom :=
  match event with
  | none => staleClear tv dom
  | some e =>
    match e.atSec with
    | none => staleClear tv dom
    | some evAt =>
      let ageMs := now - evAt * 1000
      if ageMs > TOMATO_LIFETIME_MS then staleClear tv dom
      else if e.id ≠ "" ∧ some e.id = tv.lastTomatoEventId then (tv, dom)
      else
        let targetRef := resolveRef e.to_id me dom
        let sourceRef := resolveRef e.from_id me dom
        let tv1 := if e.id ≠ "" then { tv with lastTomatoEventId := some e.id } else tv
        let tv2 :=
          if e.to_id ≠ "" then
            { tv1 with
                activeTomatoTargetId := some e.to_id
                activeTomatoExpiresAt := evAt * 1000 + TOMATO_LIFETIME_MS
                activeTomatoShowAt := now + TOMATO_FLIGHT_MS }
          else tv1
        match sourceRef, targetRef with
        | some _, some _ =>
          let dom1 := animateTomatoFlight now dom
          let tv3 := scheduleTomatoImpact now e.to_id TOMATO_FLIGHT_MS tv2
          let dom2 := updateTomatoToast (some (tomatoToastText e)) dom1
          (scheduleTomatoClear now tv3, dom2)
        | none, some t =>
          let dom1 := addHitRef t dom
          let dom2 := updateTomatoToast (some (tomatoToastText e)) dom1
          (scheduleTomatoClear now tv2, dom2)
        | _, none =>
          (scheduleTomatoClear now tv2, updateTomatoToast (some (tomatoToastText e)) dom)

/-- Function `applyActiveTomatoTarget` (script.js lines 1103-1127):
re-apply (or expire) the persistent hit marking after a re-render. -/
def applyActiveTomatoTarget (now : ℚ) (me : Player) (tv : TomatoVars) (dom : Dom) :
    TomatoVars × Dom :=
  let expire : TomatoVars × Dom :=
    ({ tv with
        activeTomatoTargetId := none
        activeTomatoExpiresAt := 0
        activeTomatoShowAt := 0
        impactTimer := none },
      clearHits dom)
  match tv.activeTomatoTargetId with
  | none => expire
  | some tid =>
    if now > tv.activeTomatoExpiresAt then expire
    else if tv.activeTomatoShowAt ≠ 0 ∧ now < tv.activeTomatoShowAt then
      (scheduleTomatoImpact now tid (tv.activeTomatoShowAt - now) tv, dom)
    else
      match resolveRef tid (some me) dom with
      | some r => (tv, addHitRef r dom)
      | none => (tv, dom)

/-- Function `updateDiscSpan` models the per-element body of
`updateDisconnectedTimers` (script.js lines 570-575). -/
def updateDiscSpan (now : ℚ) (sp : DiscTimeSpan) : DiscTimeSpan :=
  if sp.dataDisconnectedAt ≤ 0 then sp
  else { sp with text := " (" ++ formatDuration (now / 1000 - sp.dataDisconnectedAt) ++ ")" }

/-- Function `updateDisconnectedTimers` (script.js lines 566-576). -/
def updateDisconnectedTimers (now : ℚ) (dom : Dom) : Dom :=
  { dom with
      opponents := dom.opponents.map (fun c =>
        match c.discTime with
        | some sp => { c with discTime := some (updateDiscSpan now sp) }
        | none => c) }

/-- The chip-bank button for one available chip value (script.js lines
837-844): label `★ value`, click emits `take_chip` from the center. -/
def mkChipBankButton (chip_color : String) (val : Int) : ChipButton :=
  { className := "chip chip-" ++ jsToLower chip_color
    label := "★ " ++ toString val
    onClick := takeChip val "center" }

/-- One rendered opponent card (script.js lines 851-925). -/
def renderOpponent (now : ℚ) (chip_color : String) (p : Player) : OpponentCard :=
  let disconnectedClass := if p.is_connected then "" else "disconnected"
  let chipHtml :=
    match p.chip with
    | some c =>
      if c ≠ 0 then
        "<button class=\"chip chip-" ++ jsToLower chip_color ++ "\" onclick=\"takeChip(" ++
        toString c ++ ", \x27" ++ p.player_id ++ "\x27)\">★ " ++ toString c ++ "</button>"
      else "<span class=\"no-chip\">No Chip</span>"
    | none => "<span class=\"no-chip\">No Chip</span>"
  let historyHtml :=
    if p.chip_history = [] then ""
    else
      "<div class=\"chip-history\">" ++
      String.join (p.chip_history.map (fun h =>
        "<span class=\"mini-chip chip-" ++ jsToLower h.color ++ "\">" ++ toString h.value ++ "</span>")) ++
      "</div>"
  let handHtml :=
    if p.hand = [] then "<div class=\"p-hand\">🂠 🂠</div>"
    else
      "<div class=\"card-container small\">" ++
      String.join (p.hand.map (fun c =>
        cardDivHtml { createCardDiv c with classes := (createCardDiv c).classes ++ ["small-card"] })) ++
      "</div>"
  let isDisc := p.is_connected == false
  let atQ := p.disconnected_at.getD 0
  { player_id := p.player_id
    className := "player-card " ++ (if p.is_settled then "settled" else "thinking") ++ " " ++
      disconnectedClass
    nameBtnLabel := p.name
    statusLabel := if isDisc then "⛔ DISCONNECTED"
      else if p.is_settled then "✔ SETTLED" else "..."
    discTime := if isDisc then
        some { dataDisconnectedAt := atQ
               text := if atQ = 0 then "" else " (" ++ formatDuration (now / 1000 - atQ) ++ ")" }
      else none
    kickBtn := isDisc
    handHtml := handHtml
    chipHtml := chipHtml
    historyHtml := historyHtml
    tomatoHit := false }

/-- One rendered observer pill (script.js lines 934-942). -/
def mkObserverPill (isObserverView : Bool) (me : Player) (o : Player) : ObserverPill :=
  { className := "observer-pill " ++ (if o.is_connected then "" else "disconnected")
    text := o.name ++ (if o.queued_to_join then " (QUEUING)" else "") ++
      (if isObserverView && (o.player_id == me.player_id) then " (You)" else "") }

/-- One rendered chat line (script.js lines 951-966). -/
def mkChatLine (m : ChatMsg) : ChatLine :=
  { nameText := m.name ++ (if m.is_observer then " (Observer)" else "")
    textText := m.text }

/-- One rendered mini chip of the personal history (script.js lines
980-986). -/
def mkMiniChip (h : ChipHist) : MiniChip :=
  { className := "mini-chip chip-" ++ jsToLower h.color
    text := toString h.value }

/-- The tomato calls at the end of `renderGame` (script.js lines
1024-1029). -/
def tomatoTail (now : ℚ) (me : Player) (tomato_event : Option TomatoEvent)
    (tv : TomatoVars) (dom : Dom) : TomatoVars × Dom :=
  let s1 := applyActiveTomatoTarget now me tv dom
  let s2 := applyTomatoEffect now tomato_event (some me) s1.1 s1.2
  match s2.1.pendingTomatoEvent with
  | some e =>
    let s3 := applyTomatoEffect now (some e) (some me) s2.1 s2.2
    ({ s3.1 with pendingTomatoEvent := none }, s3.2)
  | none => s2

/-- Function `renderGame` of the latest version (script.js lines 735-1031). -/
def renderGame (now : ℚ) (cs : ClientState) (dom : Dom) (state : GameState) :
    ClientState × Dom :=
  let cs0 := { cs with lastState := some state }
  match state.me with
  | none => (cs0, dom)
  | some me =>
    let isObserverView := state.viewer_role == "observer"
    let cs1 :=
      if isObserverView ≠ cs0.isObserver then
        { cs0 with
            isObserver := isObserverView
            storage := { cs0.storage with observer_mode := some (toString isObserverView) } }
      else cs0
    let dom1 := { dom with bodyObserverMode := isObserverView }
    let dom2 :=
      if state.phase != "RESULT" then { dom1 with phaseDisplay := statusText state } else dom1
    let dom3 := { dom2 with
        vaultCount := toString state.vaults
        alarmCount := toString state.alarms
        myNameText := me.name }
    let dom4 :=
      if state.phase == "RESULT" then
        { dom3 with
            phaseDisplay :=
              resultPhaseInnerHtml cs1.showResultDetails state.result_message
                state.result_details }
      else dom3
    let dom5 := { dom4 with communityCards := state.community_cards.map createCardDiv }
    let dom6 := { dom5 with chipBank := state.chips_available.map (mkChipBankButton state.chip_color) }
    let myPlayerId := if isObserverView then none else some me.player_id
    let dom7 := { dom6 with
        opponents :=
          (state.players.filter (fun (p : Player) =>
            !p.is_observer &&
            !(match myPlayerId with
              | some mid => (mid != "") && (p.player_id == mid)
              | none => false))).map (renderOpponent now state.chip_color) }
    let observerItems := state.players.filter (fun p => p.is_observer)
    let dom8 := { dom7 with
        observerPills := observerItems.map (mkObserverPill isObserverView me)
        observerEmptyMsg := observerItems.isEmpty
        observerStatus := if isObserverView then "You are observing" else ""
        observerBtnText := if isObserverView then "Join Game" else "Observe" }
    let dom9 := { dom8 with chatLines := state.chat_messages.map mkChatLine }
    let dom10 := { dom9 with
        myCards := if !isObserverView && !me.hand.isEmpty then me.hand.map createCardDiv else []
        myHistory :=
          if !isObserverView && !me.chip_history.isEmpty then me.chip_history.map mkMiniChip
          else [] }
    let meChipTruthy := match me.chip with | some c => c != 0 | none => false
    let dom11 :=
      if !isObserverView && meChipTruthy then
        { dom10 with
            myChipSlot := "<div class=\"chip chip-" ++ jsToLower state.chip_color ++ "\">★ " ++
              toString (me.chip.getD 0) ++ "</div>"
            settleBtnDisabled := false
            returnBtnDisabled := me.is_settled }
      else if isObserverView then
        { dom10 with
            myChipSlot := "<span class=\"placeholder\">Observer</span>"
            settleBtnDisabled := true
            returnBtnDisabled := true }
      else
        { dom10 with
            myChipSlot := "<span class=\"placeholder\">Pick a chip</span>"
            settleBtnDisabled := true
            returnBtnDisabled := true }
    let dom12 :=
      if isObserverView then
        { dom11 with
            settleBtnText := "I\x27m Settled"
            settleBtnActive := false
            chipBankDisabled := true }
      else if me.is_settled then
        { dom11 with
            settleBtnText := "Cancel Settle"
            settleBtnActive := true
            chipBankDisabled := true }
      else
        { dom11 with
            settleBtnText := "I\x27m Settled"
            settleBtnActive := false
            chipBankDisabled := false }
    let dom13 := { dom12 with
        playerAreaSettled := !isObserverView && me.is_settled
        playerAreaHasSplat := true
        playerAreaPlayerId := some me.player_id }
    let tail := tomatoTail now me state.tomato_event cs1.tomato dom13
    ({ cs1 with tomato := tail.1 }, updateDisconnectedTimers now tail.2)

/-- Handler of the `game_update` socket event (script.js line 518): it is
`renderGame` itself. -/
def onGameUpdate (now : ℚ) (cs : ClientState) (dom : Dom) (state : GameState) :
    ClientState × Dom :=
  renderGame now cs dom state

/-- Action `toggleResultDetails` (script.js lines 698-701). -/
def toggleResultDetails (now : ℚ) (cs : ClientState) (dom : Dom) : ClientState × Dom :=
  let cs1 := { cs with showResultDetails := !cs.showResultDetails }
  match cs1.lastState with
  | some st => renderGame now cs1 dom st
  | none => (cs1, dom)

/-- Handler of the `tomato_event` socket event (script.js lines 524-536). -/
def onTomatoEvent (now : ℚ) (cs : ClientState) (dom : Dom) (e : TomatoEvent) :
    ClientState × Dom :=
  match cs.lastState with
  | none => ({ cs with tomato := { cs.tomato with pendingTomatoEvent := some e } }, dom)
  | some ls =>
    let dom1 :=
      match ls.me with
      | some m => { dom with playerAreaPlayerId := some m.player_id, playerAreaHasSplat := true }
      | none => dom
    let r := applyTomatoEffect now (some e) ls.me cs.tomato dom1
    ({ cs with tomato := r.1 }, r.2)

/-- Concrete quiescent tomato variables, as set up at script start. -/
def emptyTomatoVars : TomatoVars :=
  { lastTomatoEventId := none
    pendingTomatoEvent := none
    activeTomatoTargetId := none
    activeTomatoExpiresAt := 0
    activeTomatoShowAt := 0
    clearTimer := none
    impactTimer := none }

/-- Concrete sample player used to exercise the theorems. -/
def samplePlayer : Player :=
  { player_id := "p1"
    name := "Ana"
    is_observer := false
    is_connected := true
    is_settled := false
    queued_to_join := false
    chip := none
    chip_history := []
    hand := []
    disconnected_at := none }

/-- Concrete sample client state used to exercise the theorems. -/
def sampleClient : ClientState :=
  { storage := { player_id := some "p1", player_name := none, observer_mode := none }
    playerId := "p1"
    myName := ""
    isObserver := false
    showResultDetails := false
    lastState := none
    tomato := emptyTomatoVars }

/-- Concrete blank DOM used to exercise the theorems. -/
def sampleDom : Dom :=
  { bodyObserverMode := false
    phaseDisplay := ""
    vaultCount := ""
    alarmCount := ""
    myNameText := ""
    communityCards := []
    chipBank := []
    chipBankDisabled := false
    opponents := []
    observerPills := []
    observerEmptyMsg := false
    observerStatus := ""
    observerBtnText := ""
    chatLines := []
    myCards := []
    myHistory := []
    myChipSlot := ""
    settleBtnDisabled := false
    returnBtnDisabled := false
    settleBtnText := ""
    settleBtnActive := false
    playerAreaSettled := false
    playerAreaPlayerId := none
    playerAreaHasSplat := false
    playerAreaTomatoHit := false
    tomatoFlights := []
    tomatoToast := none }

/-- Concrete sample snapshot during play, seen by player `p1`. -/
def sampleState : GameState :=
  { me := some samplePlayer
    viewer_role := "player"
    phase := "FLOP"
    chip_color := "RED"
    community_cards := [{ str := "A♥", suit := "♥" }]
    chips_available := [1, 2, 3]
    players := [samplePlayer]
    result_message := none
    result_details := none
    vaults := 0
    alarms := 0
    chat_messages := []
    tomato_event := none }

/-- Concrete snapshot whose `me` field is absent (not yet joined). -/
def stNoMe : GameState :=
  { sampleState with me := none }

/-- Concrete RESULT snapshot that carries no `result_details`. -/
def resultStateNoDetails : GameState :=
  { sampleState with
      phase := "RESULT"
      result_message := some "BIG WIN"
      result_details := none }

/-- Concrete client that has the detail toggle on and saw
`resultStateNoDetails`. -/
def csShowDetails : ClientState :=
  { sampleClient with showResultDetails := true, lastState := some resultStateNoDetails }

lemma rat_floor_nonneg {x : ℚ} (h : 0 ≤ x) : 0 ≤ Rat.floor x :=
  Rat.le_floor.mpr (by exact_mod_cast h)

lemma rat_floor_nonpos {x : ℚ} (h : x ≤ 0) : Rat.floor x ≤ 0 := by
  by_contra h1
  push_neg at h1
  have h2 : (1 : ℤ) ≤ Rat.floor x := h1
  have h3 : ((1 : ℤ) : ℚ) ≤ x := Rat.le_floor.mp h2
  push_cast at h3
  linarith

lemma rat_floor_max_zero (x : ℚ) : Rat.floor (max 0 x) = max 0 (Rat.floor x) := by
  rcases le_total x 0 with h | h
  · rw [max_eq_left h, max_eq_left (rat_floor_nonpos h)]
    decide
  · rw [max_eq_right h, max_eq_right (rat_floor_nonneg h)]

/-- Claim C10: `formatDuration` is total and clamps at zero: for every
rational input, letting `t = floor (max 0 totalSeconds)`, it returns
`{h}h {m}m` when `t ≥ 3600`, otherwise `{m}m {s}s` when `t ≥ 60`, otherwise
`{s}s`, with `h = t / 3600`, `m = (t % 3600) / 60`, `s = t % 60`; every
negative input yields `0s`. -/
theorem c10_formatDuration_spec (x : ℚ) :
    (formatDuration x =
      (let t : Int := Rat.floor (max 0 x)
       if 3600 ≤ t then s!"{t / 3600}h {t % 3600 / 60}m"
       else if 60 ≤ t then s!"{t % 3600 / 60}m {t % 60}s"
       else s!"{t % 60}s"))
    ∧ (x < 0 → formatDuration x = "0s") := by
  have hmax : Rat.floor (max 0 x) = max 0 (Rat.floor x) := rat_floor_max_zero x
  constructor
  · simp only [formatDuration, hmax]
    have ht0 : 0 ≤ max 0 (Rat.floor x) := le_max_left 0 _
    set t : Int := max 0 (Rat.floor x) with htdef
    by_cases h1 : 3600 ≤ t
    · have hd : 0 < t / 3600 := by omega
      simp [h1, hd]
    · have hd : ¬ 0 < t / 3600 := by omega
      by_cases h2 : 60 ≤ t
      · have hm : 0 < t % 3600 / 60 := by omega
        simp [h1, h2, hd, hm]
      · have hm : ¬ 0 < t % 3600 / 60 := by omega
        simp [h1, h2, hd, hm]
  · intro hx
    have hzero : max 0 (Rat.floor x) = 0 := max_eq_left (rat_floor_nonpos hx.le)
    simp only [formatDuration, hzero]
    norm_num
    decide

/-- Witness for C10 at the negative input `-5`. -/
theorem c10_witness : (-5 : ℚ) < 0 ∧ formatDuration (-5) = "0s" :=
  ⟨by decide, (c10_formatDuration_spec (-5)).2 (by decide)⟩

/-- Claim C9: submitting the chat form with a blank-trimmed input emits
nothing and leaves the input unchanged; with non-empty trimmed text `t` it
emits exactly one `chat_message` with payload `{text : t}` (the trimmed
text) and clears the input. -/
theorem c9_chatSubmit_spec (v : String) :
    (jsTrim v = "" → chatSubmit v = (v, []))
    ∧ (jsTrim v ≠ "" →
        chatSubmit v = ("", [⟨"chat_message", .chatMessageP (jsTrim v)⟩])) := by
  constructor
  · intro h
    simp [chatSubmit, h]
  · intro h
    simp [chatSubmit, h]

/-- Witness for C9 at the input `" hi "` (and its trimmed text `hi`). -/
theorem c9_witness :
    jsTrim " hi " ≠ ""
    ∧ chatSubmit " hi " = ("", [⟨"chat_message", .chatMessageP (jsTrim " hi ")⟩]) :=
  ⟨by decide, (c9_chatSubmit_spec " hi ").2 (by decide)⟩

/-- Claim C2: each user-intent entry point emits exactly one socket event
with the stated name and payload (and, as the types of the action functions
record, none of them touches the client state): `startGame` emits
`start_game`; `takeChip` emits `take_chip` with chip value and source;
`returnChip` emits `return_chip`; `toggleSettle` emits `toggle_settle`; the
tomato-menu button emits `throw_tomato` with the chosen opponent id; the
chat form with non-empty trimmed text emits `chat_message` with that
text. -/
theorem c2_user_intents (v : Int) (src tid txt : String) :
    startGame = [⟨"start_game", .empty⟩]
    ∧ takeChip v src = [⟨"take_chip", .takeChipP v src⟩]
    ∧ returnChip = [⟨"return_chip", .empty⟩]
    ∧ toggleSettle = [⟨"toggle_settle", .empty⟩]
    ∧ tomatoMenuButtonClick tid = [⟨"throw_tomato", .throwTomatoP tid⟩]
    ∧ (jsTrim txt ≠ "" →
        (chatSubmit txt).2 = [⟨"chat_message", .chatMessageP (jsTrim txt)⟩])
    ∧ startGame.length = 1 ∧ (takeChip v src).length = 1 ∧ returnChip.length = 1
    ∧ toggleSettle.length = 1 ∧ (tomatoMenuButtonClick tid).length = 1 := by
  refine ⟨rfl, rfl, rfl, rfl, rfl, ?_, rfl, rfl, rfl, rfl, rfl⟩
  intro h
  simp [chatSubmit, h]

/-- Witness for C2 at chip value 5 from the center, opponent `p2` and chat
text `yo`. -/
theorem c2_witness :
    takeChip 5 "center" = [⟨"take_chip", .takeChipP 5 "center"⟩]
    ∧ (chatSubmit "yo").2 = [⟨"chat_message", .chatMessageP (jsTrim "yo")⟩] := by
  have h := c2_user_intents 5 "center" "p2" "yo"
  exact ⟨h.2.1, h.2.2.2.2.2.1 (by decide)⟩

/-- Claim C8: when the snapshot has no `me`, `renderGame` only records the
snapshot in `lastState` and returns: the DOM, the stored observer mode and
the observer flag are untouched. -/
theorem c8_renderGame_no_me (now : ℚ) (cs : ClientState) (dom : Dom) (st : GameState)
    (hme : st.me = none) :
    renderGame now cs dom st = ({ cs with lastState := some st }, dom) := by
  simp [renderGame, hme]

/-- Witness for C8 at a concrete snapshot without `me`. -/
theorem c8_witness :
    stNoMe.me = none
    ∧ renderGame 0 sampleClient sampleDom stNoMe =
        ({ sampleClient with lastState := some stNoMe }, sampleDom) :=
  ⟨rfl, c8_renderGame_no_me 0 sampleClient sampleDom stNoMe rfl⟩

/-- Claim C4 (amended): after startup the in-memory `playerId` always equals
the stored `player_id`; a pre-existing non-empty stored id is kept verbatim
(an empty-string entry is treated like a missing one and replaced by the
fresh UUID, which is the amendment); a missing entry is filled with the
fresh UUID; and both `join_game` emissions (on `request_join` and from
`setObserverMode`) send exactly this `playerId`. -/
theorem c4_identity_cache (storage : Storage) (uuid : String) :
    ((clientInit storage uuid).storage.player_id = some (clientInit storage uuid).playerId)
    ∧ (∀ s : String, storage.player_id = some s → s ≠ "" →
        (clientInit storage uuid).playerId = s
        ∧ (clientInit storage uuid).storage.player_id = some s)
    ∧ (storage.player_id = none →
        (clientInit storage uuid).playerId = uuid
        ∧ (clientInit storage uuid).storage.player_id = some uuid)
    ∧ (onRequestJoin (clientInit storage uuid) =
        [⟨"join_game", .joinGameP (clientInit storage uuid).playerId
            (clientInit storage uuid).myName (clientInit storage uuid).isObserver⟩])
    ∧ (∀ b : Bool, (setObserverMode b (clientInit storage uuid)).2 =
        [⟨"join_game", .joinGameP (clientInit storage uuid).playerId
            (clientInit storage uuid).myName b⟩]) := by
  refine ⟨?_, ?_, ?_, rfl, fun b => rfl⟩
  · rcases h : storage.player_id with _ | s
    · simp [clientInit, h]
    · by_cases hs : s = ""
      · simp [clientInit, h, hs]
      · simp [clientInit, h, hs]
  · intro s hsome hne
    simp [clientInit, hsome, hne]
  · intro hnone
    simp [clientInit, hnone]

/-- Witness for C4 at a storage with a non-empty stored id and at a missing
entry. -/
theorem c4_witness :
    ((⟨some "old-id", none, none⟩ : Storage).player_id = some "old-id" ∧ "old-id" ≠ "")
    ∧ (clientInit ⟨some "old-id", none, none⟩ "u-1").playerId = "old-id"
    ∧ (clientInit ⟨some "old-id", none, none⟩ "u-1").storage.player_id = some "old-id"
    ∧ (clientInit ⟨none, none, none⟩ "u-2").playerId = "u-2"
    ∧ (clientInit ⟨none, none, none⟩ "u-2").storage.player_id = some "u-2" := by
  have h1 := (c4_identity_cache ⟨some "old-id", none, none⟩ "u-1").2.1 "old-id" rfl (by decide)
  have h2 := (c4_identity_cache ⟨none, none, none⟩ "u-2").2.2.1 rfl
  exact ⟨⟨rfl, by decide⟩, h1.1, h1.2, h2.1, h2.2⟩

/-- Counterexample for C4 as stated: an existing (empty-string) entry under
`player_id` is overwritten by the fresh UUID at startup. -/
theorem c4_counterexample :
    (⟨some "", none, none⟩ : Storage).player_id = some ""
    ∧ (clientInit ⟨some "", none, none⟩ "u-1").storage.player_id = some "u-1"
    ∧ (clientInit ⟨some "", none, none⟩ "u-1").storage.player_id ≠ some "" := by
  decide

/-- Claim C1 (amended): the client does choose two rendered outputs by
evaluating conditions on the state instead of copying a server field: in
`part_000` the post-result button label is `New Game` exactly when the
client-evaluated threshold `vaults ≥ 3 ∨ alarms ≥ 3` holds (and `Next
Heist` otherwise), and in both versions the result-message color is the
success green exactly when the client finds `SUCCESS` or `WIN` inside
`result_message`. -/
theorem c1_client_side_labels (v a : Int) (msg : String) :
    (part000NextButtonLabel v a = "New Game" ↔ (v ≥ 3 ∨ a ≥ 3))
    ∧ (part000NextButtonLabel v a = "New Game" ∨ part000NextButtonLabel v a = "Next Heist")
    ∧ (successColor msg = "#2ecc71" ↔ (jsIncludes msg "SUCCESS" || jsIncludes msg "WIN") = true)
    ∧ (successColor msg = "#2ecc71" ∨ successColor msg = "#e74c3c") := by
  have hne : ("Next Heist" : String) ≠ "New Game" := by decide
  have hne2 : ("#e74c3c" : String) ≠ "#2ecc71" := by decide
  refine ⟨?_, ?_, ?_, ?_⟩
  · by_cases hc : v ≥ 3 ∨ a ≥ 3
    · simp [part000NextButtonLabel, hc]
    · simp [part000NextButtonLabel, hc, hne]
  · unfold part000NextButtonLabel
    split
    · exact Or.inl rfl
    · exact Or.inr rfl
  · by_cases hc : (jsIncludes msg "SUCCESS" || jsIncludes msg "WIN") = true
    · simp [successColor, hc]
    · simp [successColor, hc, hne2]
  · unfold successColor
    split
    · exact Or.inl rfl
    · exact Or.inr rfl

/-- Counterexample for C1 as stated: with the result message fixed, the
earliest version renders different post-result button labels depending
only on the client-evaluated threshold on the vault count. -/
theorem c1_counterexample :
    part000ResultInnerHtml 3 0 "THE HEIST FAILED" ≠ part000ResultInnerHtml 2 0 "THE HEIST FAILED"
    ∧ part000NextButtonLabel 3 0 = "New Game"
    ∧ part000NextButtonLabel 2 0 = "Next Heist" := by
  decide

/-- The render-owned part of the DOM that the tomato-animation functions
never touch: phase display, community cards, chip bank. -/
structure StaticView where
  phaseDisplay : String
  communityCards : List CardDiv
  chipBank : List ChipButton
  deriving DecidableEq, Repr

/-- Projection of a DOM to its tomato-invariant part. -/
def staticPart (d : Dom) : StaticView :=
  { phaseDisplay := d.phaseDisplay
    communityCards := d.communityCards
    chipBank := d.chipBank }

@[simp] lemma staticPart_clearHits (d : Dom) : staticPart (clearHits d) = staticPart d := rfl

@[simp] lemma staticPart_updateTomatoToast (t : Option String) (d : Dom) :
    staticPart (updateTomatoToast t d) = staticPart d := rfl

@[simp] lemma staticPart_staleClear (tv : TomatoVars) (d : Dom) :
    staticPart (staleClear tv d).2 = staticPart d := rfl

@[simp] lemma staticPart_addHitRef (r : TomatoRef) (d : Dom) :
    staticPart (addHitRef r d) = staticPart d := by
  cases r <;> rfl

@[simp] lemma staticPart_animateTomatoFlight (now : ℚ) (d : Dom) :
    staticPart (animateTomatoFlight now d) = staticPart d := rfl

@[simp] lemma staticPart_applyTomatoEffect (now : ℚ) (event : Option TomatoEvent)
    (me : Option Player) (tv : TomatoVars) (dom : Dom) :
    staticPart (applyTomatoEffect now event me tv dom).2 = staticPart dom := by
  rcases event with _ | e
  · simp [applyTomatoEffect]
  rcases hat : e.atSec with _ | evAt
  · simp [applyTomatoEffect, hat]
  simp only [applyTomatoEffect, hat]
  by_cases hage : TOMATO_LIFETIME_MS < now - evAt * 1000
  · simp [hage]
  simp only [GT.gt, if_neg hage]
  by_cases hdup : e.id ≠ "" ∧ some e.id = tv.lastTomatoEventId
  · simp [hdup]
  simp only [if_neg hdup]
  cases hsrc : resolveRef e.from_id me dom <;> cases htgt : resolveRef e.to_id me dom <;>
    simp [hsrc, htgt]

@[simp] lemma staticPart_applyActiveTomatoTarget (now : ℚ) (me : Player)
    (tv : TomatoVars) (dom : Dom) :
    staticPart (applyActiveTomatoTarget now me tv dom).2 = staticPart dom := by
  rcases htid : tv.activeTomatoTargetId with _ | tid
  · simp [applyActiveTomatoTarget, htid]
  simp only [applyActiveTomatoTarget, htid]
  by_cases hexp : tv.activeTomatoExpiresAt < now
  · simp [hexp]
  simp only [GT.gt, if_neg hexp]
  by_cases hshow : tv.activeTomatoShowAt ≠ 0 ∧ now < tv.activeTomatoShowAt
  · simp [hshow]
  simp only [if_neg hshow]
  cases href : resolveRef tid (some me) dom <;> simp [href]

@[simp] lemma staticPart_tomatoTail (now : ℚ) (me : Player) (ev : Option TomatoEvent)
    (tv : TomatoVars) (dom : Dom) :
    staticPart (tomatoTail now me ev tv dom).2 = staticPart dom := by
  simp only [tomatoTail]
  split
  all_goals simp

@[simp] lemma tomatoTail_phaseDisplay (now : ℚ) (me : Player) (ev : Option TomatoEvent)
    (tv : TomatoVars) (dom : Dom) :
    (tomatoTail now me ev tv dom).2.phaseDisplay = dom.phaseDisplay :=
  congrArg StaticView.phaseDisplay (staticPart_tomatoTail now me ev tv dom)

@[simp] lemma tomatoTail_communityCards (now : ℚ) (me : Player) (ev : Option TomatoEvent)
    (tv : TomatoVars) (dom : Dom) :
    (tomatoTail now me ev tv dom).2.communityCards = dom.communityCards :=
  congrArg StaticView.communityCards (staticPart_tomatoTail now me ev tv dom)

@[simp] lemma tomatoTail_chipBank (now : ℚ) (me : Player) (ev : Option TomatoEvent)
    (tv : TomatoVars) (dom : Dom) :
    (tomatoTail now me ev tv dom).2.chipBank = dom.chipBank :=
  congrArg StaticView.chipBank (staticPart_tomatoTail now me ev tv dom)

@[simp] lemma updateDisconnectedTimers_phaseDisplay (now : ℚ) (dom : Dom) :
    (updateDisconnectedTimers now dom).phaseDisplay = dom.phaseDisplay := rfl

@[simp] lemma updateDisconnectedTimers_communityCards (now : ℚ) (dom : Dom) :
    (updateDisconnectedTimers now dom).communityCards = dom.communityCards := rfl

@[simp] lemma updateDisconnectedTimers_chipBank (now : ℚ) (dom : Dom) :
    (updateDisconnectedTimers now dom).chipBank = dom.chipBank := rfl

@[simp] lemma dom_ite_phaseDisplay (c : Prop) [Decidable c] (a b : Dom) :
    (if c then a else b).phaseDisplay = if c then a.phaseDisplay else b.phaseDisplay :=
  apply_ite Dom.phaseDisplay c a b

@[simp] lemma dom_ite_communityCards (c : Prop) [Decidable c] (a b : Dom) :
    (if c then a else b).communityCards = if c then a.communityCards else b.communityCards :=
  apply_ite Dom.communityCards c a b

@[simp] lemma dom_ite_chipBank (c : Prop) [Decidable c] (a b : Dom) :
    (if c then a else b).chipBank = if c then a.chipBank else b.chipBank :=
  apply_ite Dom.chipBank c a b

@[simp] lemma cs_ite_showResultDetails (c : Prop) [Decidable c] (a b : ClientState) :
    (if c then a else b).showResultDetails =
      if c then a.showResultDetails else b.showResultDetails :=
  apply_ite ClientState.showResultDetails c a b

@[simp] lemma cs_ite_lastState (c : Prop) [Decidable c] (a b : ClientState) :
    (if c then a else b).lastState = if c then a.lastState else b.lastState :=
  apply_ite ClientState.lastState c a b

@[simp] lemma cs_ite_isObserver (c : Prop) [Decidable c] (a b : ClientState) :
    (if c then a else b).isObserver = if c then a.isObserver else b.isObserver :=
  apply_ite ClientState.isObserver c a b

@[simp] lemma cs_ite_storage (c : Prop) [Decidable c] (a b : ClientState) :
    (if c then a else b).storage = if c then a.storage else b.storage :=
  apply_ite ClientState.storage c a b

/-- The phase display produced by `renderGame` on a snapshot with `me`
present. -/
lemma renderGame_snd_phaseDisplay (now : ℚ) (cs : ClientState) (dom : Dom) (st : GameState)
    (p : Player) (hme : st.me = some p) :
    (renderGame now cs dom st).2.phaseDisplay =
      if st.phase == "RESULT" then
        resultPhaseInnerHtml cs.showResultDetails st.result_message st.result_details
      else statusText st := by
  by_cases hp : (st.phase == "RESULT") = true
  · have hp2 : (st.phase != "RESULT") = false := by simp [bne, hp]
    simp [renderGame, hme, hp, hp2]
  · have hp2 : (st.phase != "RESULT") = true := by simpa [bne] using hp
    simp [renderGame, hme, hp, hp2]

/-- The community-card area produced by `renderGame` on a snapshot with
`me` present. -/
lemma renderGame_snd_communityCards (now : ℚ) (cs : ClientState) (dom : Dom) (st : GameState)
    (p : Player) (hme : st.me = some p) :
    (renderGame now cs dom st).2.communityCards = st.community_cards.map createCardDiv := by
  simp [renderGame, hme]

/-- The chip bank produced by `renderGame` on a snapshot with `me`
present. -/
lemma renderGame_snd_chipBank (now : ℚ) (cs : ClientState) (dom : Dom) (st : GameState)
    (p : Player) (hme : st.me = some p) :
    (renderGame now cs dom st).2.chipBank =
      st.chips_available.map (mkChipBankButton st.chip_color) := by
  simp [renderGame, hme]

/-- The observer flag after `renderGame` on a snapshot with `me` present. -/
lemma renderGame_fst_isObserver (now : ℚ) (cs : ClientState) (dom : Dom) (st : GameState)
    (p : Player) (hme : st.me = some p) :
    (renderGame now cs dom st).1.isObserver = (st.viewer_role == "observer") := by
  by_cases hob : ((st.viewer_role == "observer") ≠ cs.isObserver)
  · simp [renderGame, hme, hob]
  · push_neg at hob
    simp [renderGame, hme, hob]

/-- The stored observer mode after `renderGame` on a snapshot with `me`
present. -/
lemma renderGame_fst_storage (now : ℚ) (cs : ClientState) (dom : Dom) (st : GameState)
    (p : Player) (hme : st.me = some p) :
    (renderGame now cs dom st).1.storage =
      if (st.viewer_role == "observer") ≠ cs.isObserver then
        { cs.storage with observer_mode := some (toString (st.viewer_role == "observer")) }
      else cs.storage := by
  by_cases hob : ((st.viewer_role == "observer") ≠ cs.isObserver)
  · simp [renderGame, hme, hob]
  · push_neg at hob
    simp [renderGame, hme, hob]

/-- The detail-toggle flag survives `renderGame` unchanged. -/
lemma renderGame_fst_showResultDetails (now : ℚ) (cs : ClientState) (dom : Dom)
    (st : GameState) :
    (renderGame now cs dom st).1.showResultDetails = cs.showResultDetails := by
  rcases hme : st.me with _ | p <;> simp [renderGame, hme]

/-- Every `renderGame` call records the snapshot in `lastState`. -/
lemma renderGame_fst_lastState (now : ℚ) (cs : ClientState) (dom : Dom) (st : GameState) :
    (renderGame now cs dom st).1.lastState = some st := by
  rcases hme : st.me with _ | p <;> simp [renderGame, hme]

/-- Claim C3: every `game_update` snapshot is handed to `renderGame`; with
`me` present the chip bank is rebuilt with exactly one button per value of
`chips_available`, in order, labeled with that value, whose click emits
`take_chip` with that value from the center; and the community-card area is
rebuilt with one card element per entry of `community_cards` in order. -/
theorem c3_game_update_render (now : ℚ) (cs : ClientState) (dom : Dom) (st : GameState)
    (p : Player) (hme : st.me = some p) :
    onGameUpdate now cs dom st = renderGame now cs dom st
    ∧ (renderGame now cs dom st).2.chipBank =
        st.chips_available.map (fun v =>
          { className := "chip chip-" ++ jsToLower st.chip_color
            label := "★ " ++ toString v
            onClick := [⟨"take_chip", .takeChipP v "center"⟩] })
    ∧ (renderGame now cs dom st).2.chipBank.length = st.chips_available.length
    ∧ (renderGame now cs dom st).2.communityCards = st.community_cards.map createCardDiv
    ∧ (renderGame now cs dom st).2.communityCards.length = st.community_cards.length := by
  have hcb := renderGame_snd_chipBank now cs dom st p hme
  have hcc := renderGame_snd_communityCards now cs dom st p hme
  refine ⟨rfl, ?_, ?_, hcc, ?_⟩
  · rw [hcb]
    rfl
  · rw [hcb]
    simp
  · rw [hcc]
    simp

/-- Witness for C3 at the concrete sample snapshot (chips 1, 2, 3 of color
RED and one community card). -/
theorem c3_witness :
    sampleState.me = some samplePlayer
    ∧ onGameUpdate 0 sampleClient sampleDom sampleState =
        renderGame 0 sampleClient sampleDom sampleState
    ∧ (renderGame 0 sampleClient sampleDom sampleState).2.chipBank =
        sampleState.chips_available.map (fun v =>
          { className := "chip chip-" ++ jsToLower sampleState.chip_color
            label := "★ " ++ toString v
            onClick := [⟨"take_chip", .takeChipP v "center"⟩] })
    ∧ (renderGame 0 sampleClient sampleDom sampleState).2.communityCards =
        sampleState.community_cards.map createCardDiv := by
  have h := c3_game_update_render 0 sampleClient sampleDom sampleState samplePlayer rfl
  exact ⟨rfl, h.1, h.2.1, h.2.2.2.1⟩

/-- Claim C5 (amended): after every `renderGame` call with `me` present the
`isObserver` flag equals `viewer_role == "observer"`; the localStorage
`observer_mode` entry is rewritten to that value exactly when the flag
differed before the call (when they already agreed the entry is left as it
was, possibly absent); and `setObserverMode b` sets the flag and the entry
to `b` and re-emits `join_game` with `is_observer = b`. -/
theorem c5_observer_sync (now : ℚ) (cs : ClientState) (dom : Dom) (st : GameState)
    (p : Player) (hme : st.me = some p) :
    ((renderGame now cs dom st).1.isObserver = (st.viewer_role == "observer"))
    ∧ (cs.isObserver ≠ (st.viewer_role == "observer") →
        (renderGame now cs dom st).1.storage.observer_mode =
          some (toString (st.viewer_role == "observer")))
    ∧ (cs.isObserver = (st.viewer_role == "observer") →
        (renderGame now cs dom st).1.storage.observer_mode = cs.storage.observer_mode)
    ∧ (∀ (b : Bool) (cs2 : ClientState),
        setObserverMode b cs2 =
          ({ cs2 with
              isObserver := b
              storage := { cs2.storage with observer_mode := some (toString b) } },
            [⟨"join_game", .joinGameP cs2.playerId cs2.myName b⟩])) := by
  have hst := renderGame_fst_storage now cs dom st p hme
  refine ⟨renderGame_fst_isObserver now cs dom st p hme, ?_, ?_, fun b cs2 => rfl⟩
  · intro hne
    rw [hst, if_pos (Ne.symm hne)]
  · intro heq
    rw [hst, if_neg (not_ne_iff.mpr heq.symm)]

/-- Concrete snapshot that puts the viewer in the observer seat. -/
def stObserver : GameState :=
  { sampleState with viewer_role := "observer" }

/-- Witness for C5 at a concrete observer-seat snapshot reaching a client
whose flag said player. -/
theorem c5_witness :
    sampleClient.isObserver ≠ (stObserver.viewer_role == "observer")
    ∧ (renderGame 0 sampleClient sampleDom stObserver).1.isObserver =
        (stObserver.viewer_role == "observer")
    ∧ (renderGame 0 sampleClient sampleDom stObserver).1.storage.observer_mode =
        some (toString (stObserver.viewer_role == "observer")) := by
  have h := c5_observer_sync 0 sampleClient sampleDom stObserver samplePlayer rfl
  exact ⟨by decide, h.1, h.2.1 (by decide)⟩

/-- Counterexample for C5 as stated: when flag and snapshot already agree,
the localStorage entry is not written, so after the call it does not hold
the value the claim demands (here it is still absent). -/
theorem c5_counterexample :
    sampleState.me = some samplePlayer
    ∧ sampleClient.isObserver = false
    ∧ sampleClient.storage.observer_mode = none
    ∧ (sampleState.viewer_role == "observer") = false
    ∧ (renderGame 0 sampleClient sampleDom sampleState).1.storage.observer_mode = none
    ∧ (renderGame 0 sampleClient sampleDom sampleState).1.storage.observer_mode ≠
        some (toString false) := by
  have hst := renderGame_fst_storage 0 sampleClient sampleDom sampleState samplePlayer rfl
  rw [if_neg (by decide)] at hst
  refine ⟨rfl, rfl, rfl, rfl, ?_, ?_⟩
  · rw [hst]
    rfl
  · rw [hst]
    decide

lemma string_append_data (a b : String) : (a ++ b).data = a.data ++ b.data := rfl

lemma string_length_append (a b : String) : (a ++ b).length = a.length + b.length := by
  show (a.data ++ b.data).length = a.data.length + b.data.length
  exact List.length_append _ _

lemma buildResultDetails_some_ne (d : ResultDetails) : buildResultDetails (some d) ≠ "" := by
  intro h
  have h2 := congrArg String.length h
  simp only [buildResultDetails, string_length_append] at h2
  have hpos : 0 < ("<div class=\"result-details\">" : String).length := by decide
  have h0 : ("" : String).length = 0 := by decide
  omega

lemma resultDetailsComponent_ne_iff (b : Bool) (det : Option ResultDetails) :
    resultDetailsComponent b det ≠ "" ↔ (b = true ∧ det ≠ none) := by
  cases b <;> cases det
  · simp [resultDetailsComponent]
  · simp [resultDetailsComponent]
  · simp [resultDetailsComponent, buildResultDetails]
  · simp [resultDetailsComponent, buildResultDetails_some_ne]

/-- Claim C7 (amended): `toggleResultDetails` flips the flag and re-renders
from `lastState`; in the RESULT phase the rendered phase area is the header
followed by the detailed-rankings component, and that component is
non-empty iff the flag is on AND `result_details` is present (the latter
condition is the amendment); toggling twice restores the flag and the
rendered phase area. -/
theorem c7_result_details_toggle (t1 t2 : ℚ) (cs : ClientState) (dom : Dom) (st : GameState)
    (p : Player) (hlast : cs.lastState = some st) (hme : st.me = some p) :
    ((toggleResultDetails t1 cs dom).1.showResultDetails = !cs.showResultDetails)
    ∧ ((toggleResultDetails t2 (toggleResultDetails t1 cs dom).1
          (toggleResultDetails t1 cs dom).2).1.showResultDetails = cs.showResultDetails)
    ∧ (st.phase = "RESULT" →
        (toggleResultDetails t1 cs dom).2.phaseDisplay =
          resultHeaderHtml (!cs.showResultDetails) st.result_message ++
            resultDetailsComponent (!cs.showResultDetails) st.result_details)
    ∧ (st.phase = "RESULT" →
        (toggleResultDetails t2 (toggleResultDetails t1 cs dom).1
          (toggleResultDetails t1 cs dom).2).2.phaseDisplay =
          resultHeaderHtml cs.showResultDetails st.result_message ++
            resultDetailsComponent cs.showResultDetails st.result_details)
    ∧ (∀ (b : Bool) (det : Option ResultDetails),
        resultDetailsComponent b det ≠ "" ↔ (b = true ∧ det ≠ none)) := by
  have h1 : toggleResultDetails t1 cs dom =
      renderGame t1 { cs with showResultDetails := !cs.showResultDetails } dom st := by
    simp [toggleResultDetails, hlast]
  have hf1 : (toggleResultDetails t1 cs dom).1.showResultDetails = !cs.showResultDetails := by
    rw [h1, renderGame_fst_showResultDetails]
  have hl1 : (toggleResultDetails t1 cs dom).1.lastState = some st := by
    rw [h1, renderGame_fst_lastState]
  have h2gen : ∀ r : ClientState × Dom, r.1.lastState = some st →
      toggleResultDetails t2 r.1 r.2 =
        renderGame t2 { r.1 with showResultDetails := !r.1.showResultDetails } r.2 st := by
    intro r hr
    simp [toggleResultDetails, hr]
  have h2 := h2gen (toggleResultDetails t1 cs dom) hl1
  refine ⟨hf1, ?_, ?_, ?_, resultDetailsComponent_ne_iff⟩
  · rw [h2, renderGame_fst_showResultDetails]
    show (!((toggleResultDetails t1 cs dom).1.showResultDetails)) = cs.showResultDetails
    rw [hf1, Bool.not_not]
  · intro hph
    have hbeq : (st.phase == "RESULT") = true := by simp [hph]
    rw [h1, renderGame_snd_phaseDisplay t1 _ dom st p hme, if_pos hbeq]
    rfl
  · intro hph
    have hbeq : (st.phase == "RESULT") = true := by simp [hph]
    rw [h2, renderGame_snd_phaseDisplay t2 _ _ st p hme, if_pos hbeq]
    simp only [hf1, Bool.not_not]
    rfl

/-- Concrete RESULT snapshot carrying (empty) detailed rankings. -/
def stResultD : GameState :=
  { sampleState with
      phase := "RESULT"
      result_message := some "HEIST SUCCESS"
      result_details := some { flop := [], turn := [], river := [] } }

/-- Concrete client that last saw `stResultD`. -/
def csResult : ClientState :=
  { sampleClient with lastState := some stResultD }

/-- Witness for C7 at the concrete RESULT snapshot. -/
theorem c7_witness :
    ((toggleResultDetails 0 csResult sampleDom).1.showResultDetails =
      !csResult.showResultDetails)
    ∧ ((toggleResultDetails 0 (toggleResultDetails 0 csResult sampleDom).1
          (toggleResultDetails 0 csResult sampleDom).2).1.showResultDetails =
        csResult.showResultDetails)
    ∧ ((toggleResultDetails 0 csResult sampleDom).2.phaseDisplay =
        resultHeaderHtml (!csResult.showResultDetails) stResultD.result_message ++
          resultDetailsComponent (!csResult.showResultDetails) stResultD.result_details) := by
  have h := c7_result_details_toggle 0 0 csResult sampleDom stResultD samplePlayer rfl rfl
  exact ⟨h.1, h.2.1, h.2.2.1 rfl⟩

set_option maxRecDepth 16384 in
/-- Counterexample for C7 as stated: flag on, `result_details` absent — the
RESULT phase area contains no detailed-rankings markup although the flag is
true. -/
theorem c7_counterexample :
    csShowDetails.showResultDetails = true
    ∧ resultStateNoDetails.phase = "RESULT"
    ∧ jsIncludes ((renderGame 0 csShowDetails sampleDom resultStateNoDetails).2.phaseDisplay)
        "result-details" = false := by
  have hp := renderGame_snd_phaseDisplay 0 csShowDetails sampleDom resultStateNoDetails
    samplePlayer rfl
  rw [if_pos (by decide)] at hp
  refine ⟨rfl, rfl, ?_⟩
  rw [hp]
  decide

lemma c6_stale_fact : TOMATO_LIFETIME_MS < (4000 : ℚ) - 0 * 1000 := by
  norm_num [TOMATO_LIFETIME_MS]

/-- Claim C6: a tomato event older than `TOMATO_LIFETIME_MS = 3000` ms is
not applied: `applyTomatoEffect` only clears existing hit markings (and
cancels the pending impact callback and toast); and `scheduleTomatoClear`
schedules a callback 3000 ms out whose body removes every `tomato-hit`
marking and every flight element and resets the active-tomato state. -/
theorem c6_tomato_transient (now evAt : ℚ) (e : TomatoEvent) (me : Option Player)
    (tv tv2 tv3 : TomatoVars) (dom dom3 : Dom)
    (hat : e.atSec = some evAt) (hstale : TOMATO_LIFETIME_MS < now - evAt * 1000) :
    TOMATO_LIFETIME_MS = 3000
    ∧ applyTomatoEffect now (some e) me tv dom =
        ({ tv with impactTimer := none }, updateTomatoToast none (clearHits dom))
    ∧ (∀ c ∈ (applyTomatoEffect now (some e) me tv dom).2.opponents, c.tomatoHit = false)
    ∧ (applyTomatoEffect now (some e) me tv dom).2.playerAreaTomatoHit = false
    ∧ (scheduleTomatoClear now tv2).clearTimer = some (now + TOMATO_LIFETIME_MS)
    ∧ (fireTomatoClear tv3 dom3).1.activeTomatoTargetId = none
    ∧ (fireTomatoClear tv3 dom3).1.activeTomatoExpiresAt = 0
    ∧ (fireTomatoClear tv3 dom3).1.activeTomatoShowAt = 0
    ∧ (fireTomatoClear tv3 dom3).1.impactTimer = none
    ∧ (fireTomatoClear tv3 dom3).2.tomatoFlights = []
    ∧ (fireTomatoClear tv3 dom3).2.playerAreaTomatoHit = false
    ∧ (∀ c ∈ (fireTomatoClear tv3 dom3).2.opponents, c.tomatoHit = false) := by
  have happ : applyTomatoEffect now (some e) me tv dom = staleClear tv dom := by
    simp only [applyTomatoEffect, hat]
    rw [if_pos hstale]
  refine ⟨rfl, ?_, ?_, ?_, rfl, rfl, rfl, rfl, rfl, rfl, rfl, ?_⟩
  · rw [happ]
    rfl
  · rw [happ]
    intro c hc
    simp only [staleClear, updateTomatoToast, clearHits, List.mem_map] at hc
    obtain ⟨c0, h0, rfl⟩ := hc
    rfl
  · rw [happ]
    rfl
  · intro c hc
    simp only [fireTomatoClear, updateTomatoToast, clearHits, List.mem_map] at hc
    obtain ⟨c0, h0, rfl⟩ := hc
    rfl

/-- Concrete stale tomato event (thrown at second 0). -/
def sampleTomatoEvent : TomatoEvent :=
  { id := "e1"
    atSec := some 0
    from_id := ""
    to_id := "p2"
    from_name := "Ana"
    to_name := "Bob" }

/-- Witness for C6: at time 4000 ms the event from second 0 is stale, the
effect only clears, and the clear callback is scheduled 3000 ms out. -/
theorem c6_witness :
    TOMATO_LIFETIME_MS < (4000 : ℚ) - 0 * 1000
    ∧ applyTomatoEffect 4000 (some sampleTomatoEvent) none emptyTomatoVars sampleDom =
        ({ emptyTomatoVars with impactTimer := none },
          updateTomatoToast none (clearHits sampleDom))
    ∧ (scheduleTomatoClear 4000 emptyTomatoVars).clearTimer =
        some (4000 + TOMATO_LIFETIME_MS) := by
  have h := c6_tomato_transient 4000 0 sampleTomatoEvent none emptyTomatoVars emptyTomatoVars
    emptyTomatoVars sampleDom sampleDom rfl c6_stale_fact
  exact ⟨c6_stale_fact, h.2.1, h.2.2.2.2.1⟩

end TheGang
